import Mathlib

/-!
Shallow embedding of the `pyresult` repository (`either_option`): the
`Option` (`Some`/`Nothing`) and `Either` (`Right`/`Wrong`) sum types and
their combinators, translated from the Python source.

Two generations of the code are embedded where they differ:
* namespace `pkg` — the package `src/either_option/` (`_impl.py`,
  `option.py`, `either.py`), the newest generation;
* namespace `flat` — the single-module `src/either_option.py`.

Python exceptions are modelled with `Except PyExc`: an operation that can
raise returns `Except PyExc _`, and a function argument that may itself
raise when invoked is modelled as `_ → Except PyExc _`.  A lazily pulled
input sequence is modelled as a `List (Except PyExc _)`: each pull either
yields an element or raises.
-/

/-- Kinds of Python exceptions raised by the library: `AttributeError`
(missing attribute, and the `error` property of the contentful classes),
`ValueError` (`Wrong.value`), `TypeError` (`len()` on an unsized value). -/
inductive PyExc where
  | attributeError
  | valueError
  | typeError
  deriving DecidableEq

/-- A fragment of Python values, enough to model `len()`: ints have no
`len()` (it raises `TypeError`), strings and lists have their length. -/
inductive PyVal where
  | int (n : Int)
  | str (s : String)
  | list (xs : List PyVal)

/-- Python `len()` on the embedded values. -/
def pyLen : PyVal → Except PyExc Nat
  | .int _ => .error .typeError
  | .str s => .ok s.length
  | .list xs => .ok xs.length

/-- The repository's `Option` sum type: `Some(value)` / `Nothing`
(class `Option` of `option.py` / `either_option.py`; named `Opt` here
because `Option` is taken by Lean's core).  `Option.Nothing` is replaced by
a single shared instance in the source (`Nothing = Nothing()`), so the
`Nothing` constructor models that singleton. -/
inductive Opt (α : Type) where
  | Some (value : α)
  | Nothing
  deriving DecidableEq

/-- The repository's `Either` sum type: `Right(value)` / `Wrong(error)`. -/
inductive Either (ε α : Type) where
  | Right (value : α)
  | Wrong (error : ε)
  deriving DecidableEq

/-- Attribute access `.value` on an `Option` value: `Some.value` returns the
payload (option.py lines 20-22); `Nothing` has no `value` attribute at all
(`__slots__ = ()`), so the lookup raises `AttributeError`. -/
def Opt.value {α : Type} : Opt α → Except PyExc α
  | .Some v => .ok v
  | .Nothing => .error .attributeError

/-- Attribute access `.error` on an `Option` value: `_make_right` installs an
`error` property on `Some` that raises `AttributeError` (_impl.py lines 9-11
and 61); `Nothing` has no `error` attribute either, so the lookup raises
`AttributeError` as a missing attribute. -/
def Opt.error {α β : Type} : Opt α → Except PyExc β
  | .Some _ => .error .attributeError
  | .Nothing => .error .attributeError

/-- Attribute access `.value` on an `Either` value: `Right.value` returns the
payload (either.py lines 20-22); `Wrong.value` is a property that raises
`ValueError` (either.py lines 45-48). -/
def Either.value {ε α : Type} : Either ε α → Except PyExc α
  | .Right v => .ok v
  | .Wrong _ => .error .valueError

/-- Attribute access `.error` on an `Either` value: `Right.error` is a
property that raises `AttributeError` (_impl.py lines 9-11, 61);
`Wrong.error` returns the payload (either.py lines 50-52). -/
def Either.error {ε α : Type} : Either ε α → Except PyExc ε
  | .Right _ => .error .attributeError
  | .Wrong e => .ok e

/-- Spec-side extractor: the payload of a `Some`, `none` for `Nothing`.
Used only to state theorems. -/
def Opt.payload {α : Type} : Opt α → Option α
  | .Some v => some v
  | .Nothing => none

/-- Spec-side extractor: the payload of a `Right`. Used only to state
theorems. -/
def Either.rightPayload {ε α : Type} : Either ε α → Option α
  | .Right v => some v
  | .Wrong _ => none

/-- Spec-side extractor: the payload of a `Wrong`. Used only to state
theorems. -/
def Either.wrongPayload {ε α : Type} : Either ε α → Option ε
  | .Right _ => none
  | .Wrong e => some e

/-- `Option.first(seq)` (option.py lines 51-56, identical in
either_option.py lines 146-151): `for x in seq: return cls.Some(x)`, then
`return cls.Nothing`.  The input is a list of pulls, each of which may
raise; at most one pull is performed. -/
def Opt.first {α : Type} : List (Except PyExc α) → Except PyExc (Opt α)
  | [] => .ok .Nothing
  | .error exc :: _ => .error exc
  | .ok x :: _ => .ok (.Some x)

/-- The loop of `Option.sequence` (option.py lines 68-74): `collected`
accumulates `x.value` of the `Some` elements; the loop returns `Nothing` as
soon as a pulled element `is cls.Nothing`, and an exception raised by a
pull propagates. -/
def Opt.sequenceGo {α : Type} (collected : List α) :
    List (Except PyExc (Opt α)) → Except PyExc (Opt (List α))
  | [] => .ok (.Some collected)
  | .error exc :: _ => .error exc
  | .ok .Nothing :: _ => .ok .Nothing
  | .ok (.Some v) :: rest => Opt.sequenceGo (collected ++ [v]) rest

/-- `Option.sequence(seq)` (option.py lines 58-74, identical in
either_option.py lines 153-169). -/
def Opt.sequence {α : Type} (seq : List (Except PyExc (Opt α))) :
    Except PyExc (Opt (List α)) :=
  Opt.sequenceGo [] seq

/-- `_is_not_nothing(value)` (option.py lines 82-83): `value is not Nothing`.
Identity with the `Nothing` singleton is variant-membership in the
embedding. -/
def Opt.is_not_nothing {α : Type} : Opt α → Bool
  | .Some _ => true
  | .Nothing => false

/-- `Option.pack(seq)` (option.py lines 76-79):
`cls.sequence(filter(_is_not_nothing, seq))`.  `pack` is not part of any
laziness contract, so its input is a plain list; the filtered elements are
fed to `sequence` as non-raising pulls. -/
def Opt.pack {α : Type} (seq : List (Opt α)) : Except PyExc (Opt (List α)) :=
  Opt.sequence ((seq.filter Opt.is_not_nothing).map Except.ok)

namespace pkg

/-- Package-generation `and_then`: on `Right`, `_make_right.and_then`
(_impl.py lines 33-34) is `self.__class__(self.bind(func, ...))` with
`bind` calling `func(self.value)` (callable branch, lines 25-31), so an
exception raised by `func` propagates before wrapping; on `Wrong`,
`Wrong.and_then` (either.py lines 54-55) returns `self`. -/
def and_then {ε α β : Type} (x : Either ε α) (f : α → Except PyExc β) :
    Except PyExc (Either ε β) :=
  match x with
  | .Right v => (f v).map Either.Right
  | .Wrong e => .ok (.Wrong e)

/-- Package-generation `bind`: on `Right`, `func(self.value)` returned raw
(_impl.py lines 25-31, callable branch, instantiated at functions that
return an `Either`); on `Wrong`, `bind` is an alias of `and_then`
(either.py line 57), returning `self`. -/
def bind {ε α β : Type} (x : Either ε α) (f : α → Except PyExc (Either ε β)) :
    Except PyExc (Either ε β) :=
  match x with
  | .Right v => f v
  | .Wrong e => .ok (.Wrong e)

/-- `inverse` (either.py lines 29-30 and 73-74): `Right.inverse` is
`Either.Wrong(self.value)`, `Wrong.inverse` is `Either.Right(self.error)`. -/
def inverse {ε α : Type} : Either ε α → Either α ε
  | .Right v => .Wrong v
  | .Wrong e => .Right e

/-- `Right.or_else` (either.py lines 24-25): `return self`; the function
argument is never touched. -/
def right_or_else {ε α γ β : Type} (v : α) (_f : γ → Except PyExc β) :
    Either ε α :=
  .Right v

/-- `Wrong.or_else` (either.py lines 60-62):
`return self.inverse().and_then(func, *args, **kwargs)`. -/
def wrong_or_else {ε α β : Type} (e : ε) (f : ε → Except PyExc β) :
    Except PyExc (Either α β) :=
  and_then (inverse (Either.Wrong e : Either ε α)) f

/-- `Either.wrapping(exceptions, func)` (either.py lines 86-93, identical in
either_option.py lines 275-282): the adapter calls `func`, wraps a normal
return in `Right`, catches exactly the exceptions matched by the
`exceptions` tuple into `Wrong` and re-raises the rest.  The tuple of
exception classes is modelled by its membership test on the raised
exception. -/
def wrapping {α β : Type} (exceptions : PyExc → Bool) (f : α → Except PyExc β)
    (a : α) : Except PyExc (Either PyExc β) :=
  match f a with
  | .ok r => .ok (.Right r)
  | .error ex => if exceptions ex then .ok (.Wrong ex) else .error ex

/-- Package-generation `bool()` of an `Option` value.  `Some` only has the
lifted `__len__` returning `len(self.value)` (_impl.py lines 17-19, 53), so
Python takes the truth of that length and propagates the `TypeError` that
`len()` raises on an unsized payload.  `Nothing` defines neither `__bool__`
nor `__len__` — the falsy `__len__` of `_make_left` is commented out
(_impl.py lines 74-80) — so Python's default makes it truthy. -/
def boolOpt : Opt PyVal → Except PyExc Bool
  | .Some v => (pyLen v).map fun n => n != 0
  | .Nothing => .ok true

/-- Package-generation `bool()` of an `Either` value, same mechanism:
`Right` truth is the truth of `len(self.value)`; `Wrong` has neither
`__bool__` nor `__len__` and is truthy by default. -/
def boolEither : Either PyVal PyVal → Except PyExc Bool
  | .Right v => (pyLen v).map fun n => n != 0
  | .Wrong _ => .ok true

/-- The attributes installed on the package-generation `Nothing` class:
`_make_left` (_impl.py lines 84-98) installs `value_or`, `has_value` and
`__iter__`, and the class body adds `__repr__` (option.py lines 32-33).
The line that would install `and_then`/`bind` and their operator aliases is
commented out (_impl.py line 81), and `__slots__ = ()` admits nothing
else, so looking up `and_then` or `bind` on `Nothing` raises
`AttributeError`. -/
def nothingMethods : List String :=
  ["value_or", "has_value", "__iter__", "__repr__"]

end pkg

namespace flat

/-- Flat-generation `__len__`: 1 on the contentful classes
(either_option.py lines 52-54), 0 on the left classes (lines 80-81). -/
def lenOpt {α : Type} : Opt α → Nat
  | .Some _ => 1
  | .Nothing => 0

/-- Flat-generation `__len__` for `Either`, same decorators. -/
def lenEither {ε α : Type} : Either ε α → Nat
  | .Right _ => 1
  | .Wrong _ => 0

/-- Flat-generation `bool()`: Python falls back on `__len__`, nonzero is
truthy. -/
def boolOpt {α : Type} (x : Opt α) : Bool := lenOpt x != 0

/-- Flat-generation `bool()` for `Either`. -/
def boolEither {ε α : Type} (x : Either ε α) : Bool := lenEither x != 0

/-- Flat-generation `bind` on `Option`: on `Some`, `func(self.value)`
returned raw (either_option.py lines 56-59, instantiated at functions that
return an `Option`); on `Nothing`, `return_self` (lines 86-88, installed on
line 91) returns the `Nothing` singleton itself. -/
def bindOpt {α β : Type} (x : Opt α) (f : α → Except PyExc (Opt β)) :
    Except PyExc (Opt β) :=
  match x with
  | .Some v => f v
  | .Nothing => .ok .Nothing

/-- Flat-generation `and_then` on `Option`: on `Some`,
`self.__class__(self.bind(func, ...))` (either_option.py lines 61-62); on
`Nothing`, `return_self`. -/
def and_thenOpt {α β : Type} (x : Opt α) (f : α → Except PyExc β) :
    Except PyExc (Opt β) :=
  match x with
  | .Some v => (f v).map Opt.Some
  | .Nothing => .ok .Nothing

/-- Flat-generation `bind` on `Either`: on `Right`, raw `func(self.value)`;
on `Wrong`, `and_then` alias (either_option.py lines 241-244) returning
`self`. -/
def bindE {ε α β : Type} (x : Either ε α) (f : α → Except PyExc (Either ε β)) :
    Except PyExc (Either ε β) :=
  match x with
  | .Right v => f v
  | .Wrong e => .ok (.Wrong e)

/-- Flat-generation `and_then` on `Either`. -/
def and_thenE {ε α β : Type} (x : Either ε α) (f : α → Except PyExc β) :
    Except PyExc (Either ε β) :=
  match x with
  | .Right v => (f v).map Either.Right
  | .Wrong e => .ok (.Wrong e)

/-- Flat-generation `Wrong.or_else` (either_option.py lines 247-251):
`return self.__class__(func(self.__payload))` — the recovery result is
wrapped back as `Wrong`, unlike the package generation. -/
def wrong_or_else {ε γ α : Type} (e : ε) (f : ε → Except PyExc γ) :
    Except PyExc (Either γ α) :=
  (f e).map Either.Wrong

end flat

/-- The list comprehension `[x.error for x in seq if not x]` of
`Either.collect` (either.py line 106 / either_option.py line 295),
parameterised by the `bool()` the generation inherits: for each element the
truth test runs first (it can raise), `x.error` is read only on falsy
elements (it can raise on a `Right`), and exceptions propagate in
evaluation order. -/
def errorsIf {ε α : Type} (truthy : Either ε α → Except PyExc Bool) :
    List (Either ε α) → Except PyExc (List ε)
  | [] => .ok []
  | x :: rest =>
    match truthy x with
    | .error exc => .error exc
    | .ok true => errorsIf truthy rest
    | .ok false =>
      match Either.error x with
      | .error exc => .error exc
      | .ok e =>
        match errorsIf truthy rest with
        | .error exc => .error exc
        | .ok es => .ok (e :: es)

/-- The list comprehension `[x.value for x in seq]` of `Either.collect`
(either.py line 109 / either_option.py line 298): reads `.value` of every
element, so a `Wrong` in the list raises `ValueError`. -/
def valuesGo {ε α : Type} : List (Either ε α) → Except PyExc (List α)
  | [] => .ok []
  | x :: rest =>
    match Either.value x with
    | .error exc => .error exc
    | .ok v =>
      match valuesGo rest with
      | .error exc => .error exc
      | .ok vs => .ok (v :: vs)

/-- `Either.collect(seq)` (either.py lines 95-109, identical text in
either_option.py lines 284-298), parameterised by the generation's
`bool()`: `errors = [x.error for x in seq if not x]`; `if errors: return
Wrong(errors)`; `return Right([x.value for x in seq])`. -/
def collectWith {ε α : Type} (truthy : Either ε α → Except PyExc Bool)
    (seq : List (Either ε α)) : Except PyExc (Either (List ε) (List α)) :=
  match errorsIf truthy seq with
  | .error exc => .error exc
  | .ok errors =>
    if errors.isEmpty then
      match valuesGo seq with
      | .error exc => .error exc
      | .ok vs => .ok (.Right vs)
    else .ok (.Wrong errors)

/-- Flat-generation truth test as it feeds `collect`: pure, never raises. -/
def flat.truthy {ε α : Type} (x : Either ε α) : Except PyExc Bool :=
  .ok (flat.boolEither x)

/-- Flat-generation `Either.collect`. -/
def flat.collect {ε α : Type} (seq : List (Either ε α)) :
    Except PyExc (Either (List ε) (List α)) :=
  collectWith flat.truthy seq

/-- Package-generation `Either.collect`: the same source text, but the
truth test is the package `bool()` of the elements. -/
def pkg.collect (seq : List (Either PyVal PyVal)) :
    Except PyExc (Either (List PyVal) (List PyVal)) :=
  collectWith pkg.boolEither seq

theorem sequenceGo_all_some {α : Type} (vs : List α) :
    ∀ acc : List α,
      Opt.sequenceGo acc (vs.map fun v => Except.ok (Opt.Some v))
        = Except.ok (Opt.Some (acc ++ vs)) := by
  induction vs with
  | nil => intro acc; simp [Opt.sequenceGo]
  | cons v vs ih =>
      intro acc
      simp only [List.map_cons, Opt.sequenceGo, ih (acc ++ [v]),
        List.append_assoc, List.singleton_append]

theorem sequenceGo_nothing {α : Type} (vs : List α) :
    ∀ (acc : List α) (post : List (Except PyExc (Opt α))),
      Opt.sequenceGo acc
          ((vs.map fun v => Except.ok (Opt.Some v)) ++ Except.ok Opt.Nothing :: post)
        = Except.ok Opt.Nothing := by
  induction vs with
  | nil => intro acc post; simp [Opt.sequenceGo]
  | cons v vs ih =>
      intro acc post
      simpa only [List.map_cons, List.cons_append, Opt.sequenceGo] using
        ih (acc ++ [v]) post

theorem filter_is_not_nothing {α : Type} (seq : List (Opt α)) :
    seq.filter Opt.is_not_nothing = (seq.filterMap Opt.payload).map Opt.Some := by
  induction seq with
  | nil => rfl
  | cons x rest ih =>
      cases x <;> simp [List.filter, Opt.is_not_nothing, Opt.payload, ih]

/-- Claim C4: `Option.sequence` of the empty input is `Some([])`; on an
all-`Some` input it returns `Some` of the payloads in order; and as soon as
a pulled element is `Nothing` it returns `Nothing` without evaluating the
rest of the input — the result is the same for every tail `post`, raising
pulls included. -/
theorem sequence_spec :
    (∀ α : Type, Opt.sequence ([] : List (Except PyExc (Opt α))) = .ok (.Some []))
    ∧ (∀ (α : Type) (vs : List α),
        Opt.sequence (vs.map fun v => Except.ok (Opt.Some v)) = .ok (.Some vs))
    ∧ (∀ (α : Type) (vs : List α) (post : List (Except PyExc (Opt α))),
        Opt.sequence
            ((vs.map fun v => Except.ok (Opt.Some v)) ++ Except.ok Opt.Nothing :: post)
          = .ok .Nothing) := by
  refine ⟨fun α => rfl, fun α vs => ?_, fun α vs post => ?_⟩
  · simpa using sequenceGo_all_some vs []
  · exact sequenceGo_nothing vs [] post

/-- Claim C9: `Option.first` returns `Nothing` on an input that yields no
elements, and `Some x` for a first element `x` whatever the rest of the
input would do (the equality holds for every `rest`, raising pulls
included, so a second element is never pulled). -/
theorem first_spec :
    (∀ α : Type, Opt.first ([] : List (Except PyExc α)) = .ok .Nothing)
    ∧ (∀ (α : Type) (x : α) (rest : List (Except PyExc α)),
        Opt.first (.ok x :: rest) = .ok (.Some x)) :=
  ⟨fun _ => rfl, fun _ _ _ => rfl⟩

/-- Claim C6: `Option.pack` is `sequence` of the input with the `Nothing`
elements filtered out; consequently it always returns `Some` of the
payloads of the `Some` elements in order and never returns `Nothing`. -/
theorem pack_spec :
    (∀ (α : Type) (seq : List (Opt α)),
        Opt.pack seq = Opt.sequence ((seq.filter Opt.is_not_nothing).map Except.ok))
    ∧ (∀ (α : Type) (seq : List (Opt α)),
        Opt.pack seq = .ok (.Some (seq.filterMap Opt.payload)))
    ∧ Opt.pack [Opt.Some (PyVal.int 1), Opt.Nothing, Opt.Some (PyVal.str "x")]
        = .ok (.Some [PyVal.int 1, PyVal.str "x"])
    ∧ (∀ (α : Type) (seq : List (Opt α)), ∃ vs : List α,
        Opt.pack seq = .ok (.Some vs)) := by
  have main : ∀ (α : Type) (seq : List (Opt α)),
      Opt.pack seq = .ok (.Some (seq.filterMap Opt.payload)) := by
    intro α seq
    have h := filter_is_not_nothing seq
    simp only [Opt.pack, h, List.map_map]
    simpa [Function.comp] using sequenceGo_all_some (seq.filterMap Opt.payload) []
  exact ⟨fun α seq => rfl, main, main _ _,
    fun α seq => ⟨seq.filterMap Opt.payload, main α seq⟩⟩

theorem flat_errorsIf_eq {ε α : Type} (seq : List (Either ε α)) :
    errorsIf flat.truthy seq = .ok (seq.filterMap Either.wrongPayload) := by
  induction seq with
  | nil => rfl
  | cons x rest ih =>
      cases x with
      | Right v =>
          simp [errorsIf, flat.truthy, flat.boolEither, flat.lenEither,
            Either.wrongPayload, ih]
      | Wrong e =>
          simp [errorsIf, flat.truthy, flat.boolEither, flat.lenEither,
            Either.error, Either.wrongPayload, ih]

theorem valuesGo_all_right {ε α : Type} :
    ∀ seq : List (Either ε α), (seq.filterMap Either.wrongPayload).isEmpty = true →
      valuesGo seq = .ok (seq.filterMap Either.rightPayload)
  | [], _ => rfl
  | Either.Right v :: rest, h => by
      have h' : (rest.filterMap Either.wrongPayload).isEmpty = true := by
        simpa [Either.wrongPayload] using h
      simp [valuesGo, Either.value, Either.rightPayload, Either.wrongPayload,
        valuesGo_all_right rest h']
  | Either.Wrong e :: rest, h => by
      simp [Either.wrongPayload] at h

/-- Claim C1 (code bug in the package generation): in the package
`_make_left` the installation of `and_then`/`bind` on the left classes is
commented out (_impl.py line 81), so `Nothing` — whose own docstring and the
tests promise that `and_then()` and `bind()` "return immediately" — has
neither attribute and the calls raise `AttributeError` instead.  The claim
holds everywhere else: `Wrong` short-circuits in both generations and the
flat generation's `Nothing` returns the singleton unchanged, for every
function `f`, raising ones included. -/
theorem short_circuit_status :
    ("and_then" ∈ pkg.nothingMethods) = False
    ∧ ("bind" ∈ pkg.nothingMethods) = False
    ∧ (∀ (ε α β : Type) (e : ε) (f : α → Except PyExc β),
        pkg.and_then (Either.Wrong e) f = .ok (.Wrong e))
    ∧ (∀ (ε α β : Type) (e : ε) (f : α → Except PyExc (Either ε β)),
        pkg.bind (Either.Wrong e) f = .ok (.Wrong e))
    ∧ (∀ (α β : Type) (f : α → Except PyExc β),
        flat.and_thenOpt Opt.Nothing f = .ok Opt.Nothing)
    ∧ (∀ (α β : Type) (f : α → Except PyExc (Opt β)),
        flat.bindOpt Opt.Nothing f = .ok Opt.Nothing)
    ∧ (∀ (ε α β : Type) (e : ε) (f : α → Except PyExc β),
        flat.and_thenE (Either.Wrong e) f = .ok (.Wrong e))
    ∧ (∀ (ε α β : Type) (e : ε) (f : α → Except PyExc (Either ε β)),
        flat.bindE (Either.Wrong e) f = .ok (.Wrong e)) := by
  refine ⟨by simp [pkg.nothingMethods], by simp [pkg.nothingMethods],
    ?_, ?_, ?_, ?_, ?_, ?_⟩ <;> intros <;> rfl

/-- Claim C2 (code bug in the package generation): in the flat generation
truthiness is as specified — `Some`/`Right` are truthy for every payload
and `Nothing`/`Wrong` are falsy.  In the package generation `__len__` was
repurposed to `len(self.value)` and the falsy `__len__` of the left classes
was commented out, so `bool(Some(''))` and `bool(Some([]))` are `False`,
`bool(Some(0))` raises `TypeError`, and `bool(Nothing)` and
`bool(Wrong(e))` are `True` — against the classes' own docstrings and the
tests. -/
theorem truthiness_status :
    (∀ (α : Type) (v : α), flat.boolOpt (Opt.Some v) = true)
    ∧ (∀ α : Type, flat.boolOpt (Opt.Nothing : Opt α) = false)
    ∧ (∀ (ε α : Type) (v : α), flat.boolEither (Either.Right v : Either ε α) = true)
    ∧ (∀ (ε α : Type) (e : ε), flat.boolEither (Either.Wrong e : Either ε α) = false)
    ∧ pkg.boolOpt (Opt.Some (PyVal.str "")) = .ok false
    ∧ pkg.boolOpt (Opt.Some (PyVal.list [])) = .ok false
    ∧ pkg.boolOpt (Opt.Some (PyVal.int 0)) = .error .typeError
    ∧ pkg.boolOpt Opt.Nothing = .ok true
    ∧ pkg.boolEither (Either.Wrong (PyVal.str "err")) = .ok true
    ∧ pkg.boolEither (Either.Right (PyVal.str "")) = .ok false := by
  refine ⟨fun α v => rfl, fun α => rfl, fun ε α v => rfl, fun ε α e => rfl,
    ?_, ?_, ?_, ?_, ?_, ?_⟩ <;> rfl

/-- Claim C3: in the package generation, `Wrong(e).or_else(f)` is
`self.inverse().and_then(f)`, which invokes `f(e)` and wraps a normal
result as `Right(f(e))` (and propagates an exception `f` raises), while
`Right(v).or_else(f)` returns the original `Right(v)` for every `f`,
which is never invoked. -/
theorem or_else_spec :
    (∀ (ε α β : Type) (e : ε) (g : ε → β),
        (pkg.wrong_or_else e (fun x => Except.ok (g x)) : Except PyExc (Either α β))
          = .ok (.Right (g e)))
    ∧ (∀ (ε α β : Type) (e : ε) (f : ε → Except PyExc β),
        (pkg.wrong_or_else e f : Except PyExc (Either α β)) = (f e).map Either.Right)
    ∧ (∀ (ε α γ β : Type) (v : α) (f : γ → Except PyExc β),
        (pkg.right_or_else v f : Either ε α) = .Right v) :=
  ⟨fun _ _ _ _ _ => rfl, fun _ _ _ _ _ => rfl, fun _ _ _ _ _ _ => rfl⟩

/-- Claim C5 (code bug in the package generation): the flat generation's
`Either.collect` returns `Right` of all the payloads when every element is
`Right`, and otherwise `Wrong` of the error payloads of all the `Wrong`
elements in order.  The package generation runs the same source text but
inherits the broken truthiness, so `collect([Wrong('x')])` raises
`ValueError` (the `Wrong` is truthy, reaches the `.value` comprehension),
`collect([Right(5)])` raises `TypeError` (`len(5)`), and a falsy `Right`
payload sends a `Right` into the `.error` comprehension, raising
`AttributeError`. -/
theorem collect_status :
    (∀ (ε α : Type) (seq : List (Either ε α)),
        flat.collect seq
          = .ok (if (seq.filterMap Either.wrongPayload).isEmpty
                 then Either.Right (seq.filterMap Either.rightPayload)
                 else Either.Wrong (seq.filterMap Either.wrongPayload)))
    ∧ pkg.collect [Either.Wrong (PyVal.str "x")] = .error .valueError
    ∧ pkg.collect [Either.Right (PyVal.int 5)] = .error .typeError
    ∧ pkg.collect [Either.Right (PyVal.str ""), Either.Wrong (PyVal.str "x")]
        = .error .attributeError := by
  refine ⟨fun ε α seq => ?_, rfl, rfl, rfl⟩
  have he := flat_errorsIf_eq seq
  simp only [flat.collect, collectWith, he]
  cases hw : (seq.filterMap Either.wrongPayload).isEmpty with
  | true => simp [hw, valuesGo_all_right seq hw]
  | false => simp [hw]

/-- Claim C7: the adapter returned by `Either.wrapping(exceptions, func)`
returns `Right` of `func`'s result when `func` returns normally, `Wrong`
of the raised exception when that exception matches `exceptions`, and
re-raises an exception that does not match. -/
theorem wrapping_spec {α β : Type} (kinds : PyExc → Bool)
    (f : α → Except PyExc β) (a : α) :
    (∀ v, f a = .ok v → pkg.wrapping kinds f a = .ok (.Right v))
    ∧ (∀ ex, f a = .error ex → kinds ex = true →
        pkg.wrapping kinds f a = .ok (.Wrong ex))
    ∧ (∀ ex, f a = .error ex → kinds ex = false →
        pkg.wrapping kinds f a = .error ex) := by
  refine ⟨fun v hv => ?_, fun ex hex hk => ?_, fun ex hex hk => ?_⟩ <;>
    simp [pkg.wrapping, *]

/-- Witness for `wrapping_spec` at concrete inputs: a function that
returns `2`, one that raises a caught `ValueError`, and one that raises an
uncaught `TypeError`. -/
theorem wrapping_spec_witness :
    pkg.wrapping (fun ex => ex == PyExc.valueError)
        (fun n : Nat => Except.ok (n + 1)) 1 = .ok (.Right 2)
    ∧ pkg.wrapping (fun ex => ex == PyExc.valueError)
        (fun _ : Nat => (Except.error PyExc.valueError : Except PyExc Nat)) 1
      = .ok (.Wrong PyExc.valueError)
    ∧ pkg.wrapping (fun ex => ex == PyExc.valueError)
        (fun _ : Nat => (Except.error PyExc.typeError : Except PyExc Nat)) 1
      = .error PyExc.typeError :=
  ⟨(wrapping_spec (fun ex => ex == PyExc.valueError)
      (fun n : Nat => Except.ok (n + 1)) 1).1 2 rfl,
   (wrapping_spec (fun ex => ex == PyExc.valueError)
      (fun _ : Nat => (Except.error PyExc.valueError : Except PyExc Nat)) 1).2.1
      PyExc.valueError rfl rfl,
   (wrapping_spec (fun ex => ex == PyExc.valueError)
      (fun _ : Nat => (Except.error PyExc.typeError : Except PyExc Nat)) 1).2.2
      PyExc.typeError rfl rfl⟩

/-- Claim C8: reading `.value` on `Wrong` raises `ValueError`, reading
`.value` on `Nothing` raises `AttributeError`, and reading `.error` on
`Right` or on `Some` raises `AttributeError` — always an exception, never
a returned value, for every payload. -/
theorem invalid_access_spec :
    (∀ (ε α : Type) (e : ε),
        Either.value (Either.Wrong e : Either ε α) = .error .valueError)
    ∧ (∀ (ε α : Type) (v : α),
        Either.error (Either.Right v : Either ε α) = .error .attributeError)
    ∧ (∀ α : Type, Opt.value (Opt.Nothing : Opt α) = .error .attributeError)
    ∧ (∀ (α β : Type) (v : α),
        (Opt.error (Opt.Some v) : Except PyExc β) = .error .attributeError) :=
  ⟨fun _ _ _ => rfl, fun _ _ _ => rfl, fun _ => rfl, fun _ _ _ => rfl⟩

/-- Claim C10: `inverse` swaps `Right` and `Wrong` keeping the payload
unchanged, and applying it twice gives back the original value. -/
theorem inverse_spec :
    (∀ (ε α : Type) (v : α), pkg.inverse (Either.Right v : Either ε α) = Either.Wrong v)
    ∧ (∀ (ε α : Type) (e : ε), pkg.inverse (Either.Wrong e : Either ε α) = Either.Right e)
    ∧ (∀ (ε α : Type) (x : Either ε α), pkg.inverse (pkg.inverse x) = x) := by
  refine ⟨fun _ _ _ => rfl, fun _ _ _ => rfl, fun ε α x => ?_⟩
  cases x <;> rfl
